import Mathlib

/-!
Verification of the robot-control simulator `NM_RobotControl.py`.

The Python module has two classes:
* `Controller` with static rotation matrices `rotMatCCW`, `rotMatCW`, the
  orientation codec `orivec2char` / `orichar2vec`, the trajectory planner
  `plan_traj`, the bounds check `is_on_table` and the (stubbed) collision
  check `is_no_collisions`;
* `Robot`, a stateful session with `pos` and `ori` fields and the methods
  `receive_cmd`, `move`, `rotate`.

Positions and orientations are integer pairs (the Python code stores them in
numeric arrays whose entries always hold exact small integers), commands and
orientation letters are strings, so the embedding uses `Int × Int` and
`String`.
-/

namespace RobotControl

/-- A 2-vector of integers: a position or an orientation. -/
abbrev Vec := Int × Int

/-- A 2x2 integer matrix, given as two rows. -/
abbrev Mat2 := (Int × Int) × (Int × Int)

/-- `np.dot(m, v)` for a 2x2 matrix and a 2-vector. -/
def matVec (m : Mat2) (v : Vec) : Vec :=
  (m.1.1 * v.1 + m.1.2 * v.2, m.2.1 * v.1 + m.2.2 * v.2)

/-- Componentwise vector addition, `pos + ori` on the 2-element arrays. -/
def vadd (a b : Vec) : Vec := (a.1 + b.1, a.2 + b.2)

/-- `Controller.rotMatCCW = np.array([[0, -1], [1, 0]])`. -/
def rotMatCCW : Mat2 := ((0, -1), (1, 0))

/-- `Controller.rotMatCW = np.array([[0, 1], [-1, 0]])`. -/
def rotMatCW : Mat2 := ((0, 1), (-1, 0))

/-- `Controller.orivec2char`: the if/elif chain over the four unit vectors;
the fall-through (no elif matches) is Python's implicit `return None`,
embedded as `none`. -/
def orivec2char (vecOri : Vec) : Option String :=
  if vecOri = (0, 1) then some "N"
  else if vecOri = (1, 0) then some "E"
  else if vecOri = (0, -1) then some "S"
  else if vecOri = (-1, 0) then some "W"
  else none

/-- `Controller.orichar2vec`: the if/elif chain over the four letters; the
fall-through is Python's implicit `return None`, embedded as `none`. -/
def orichar2vec (chOri : String) : Option Vec :=
  if chOri = "N" then some (0, 1)
  else if chOri = "E" then some (1, 0)
  else if chOri = "S" then some (0, -1)
  else if chOri = "W" then some (-1, 0)
  else none

/-- `Controller.orichar2vec` with the return-versus-raise behaviour made
explicit: the Python function body contains no `raise`, so every branch,
including the fall-through that yields `None`, is a normal return
(`Except.ok`).  The error type is `String` (a would-be exception message);
no branch produces `Except.error`. -/
def orichar2vecE (chOri : String) : Except String (Option Vec) :=
  if chOri = "N" then Except.ok (some (0, 1))
  else if chOri = "E" then Except.ok (some (1, 0))
  else if chOri = "S" then Except.ok (some (0, -1))
  else if chOri = "W" then Except.ok (some (-1, 0))
  else Except.ok none

/-- `Controller.plan_traj`: the loop fills `arrPos[i+1]`, `arrOri[i+1]` from
`arrPos[i]`, `arrOri[i]` by cases on `arrCmd[i]` (`'L'`: rotate CCW, `'R'`:
rotate CW, anything else: move), with row 0 the start pose.  Embedded as
structural recursion on the command list, returning the two arrays as lists
(`arrPos`, `arrOri`), row `i` of the array being element `i` of the list. -/
def plan_traj : Vec → Vec → List String → List Vec × List Vec
  | p, o, [] => ([p], [o])
  | p, o, c :: cs =>
    if c = "L" then
      (p :: (plan_traj p (matVec rotMatCCW o) cs).1,
       o :: (plan_traj p (matVec rotMatCCW o) cs).2)
    else if c = "R" then
      (p :: (plan_traj p (matVec rotMatCW o) cs).1,
       o :: (plan_traj p (matVec rotMatCW o) cs).2)
    else
      (p :: (plan_traj (vadd p o) o cs).1,
       o :: (plan_traj (vadd p o) o cs).2)

/-- `Controller.is_on_table`: `pos[0] <= tableSize[0] and pos[1] <=
tableSize[1] and pos[0] >= 0 and pos[1] >= 0`. -/
def is_on_table (pos tableSize : Vec) : Bool :=
  decide (pos.1 ≤ tableSize.1) && decide (pos.2 ≤ tableSize.2)
    && decide (pos.1 ≥ 0) && decide (pos.2 ≥ 0)

/-- `Controller.is_no_collisions`: the source is an explicitly unfinished
stub whose body is `return True`, regardless of the two position arrays. -/
def is_no_collisions (_arrPos1 _arrPos2 : List Vec) : Bool :=
  true

/-- The collision check as the specification words it (spec section 4.2),
for comparison with the stub `is_no_collisions`: true iff no index `i`
below both lengths has `arrPos1[i] = arrPos2[i]`. -/
def noCollisionSpec (arrPos1 arrPos2 : List Vec) : Bool :=
  (arrPos1.zip arrPos2).all fun q => !decide (q.1 = q.2)

/-- The state of class `Robot`: a position and an orientation. -/
structure Robot where
  pos : Vec
  ori : Vec
  deriving DecidableEq

/-- `Robot.rotate`: `'L'` multiplies the orientation by `rotMatCCW`, any
other command string by `rotMatCW`; returns `True`. -/
def Robot.rotate (r : Robot) (strRot : String) : Robot × Bool :=
  if strRot = "L" then ({ r with ori := matVec rotMatCCW r.ori }, true)
  else ({ r with ori := matVec rotMatCW r.ori }, true)

/-- `Robot.move`: adds the orientation to the position; returns `True`. -/
def Robot.move (r : Robot) : Robot × Bool :=
  ({ r with pos := vadd r.pos r.ori }, true)

/-- `Robot.receive_cmd`: dispatches `'L'`/`'R'` to `rotate` and everything
else to `move`, then returns `True` unconditionally. -/
def Robot.receive_cmd (r : Robot) (strCmd : String) : Robot × Bool :=
  if strCmd = "L" ∨ strCmd = "R" then ((r.rotate strCmd).1, true)
  else (r.move.1, true)

/-- Driving a `Robot` session with a command sequence: the per-robot effect
of `Controller.send_command`, which forwards each command in order to the
robot via `receive_cmd`. -/
def runCmds : Robot → List String → Robot
  | r, [] => r
  | r, c :: cs => runCmds (r.receive_cmd c).1 cs

/-- The orientation invariant of the data model: one of the four canonical
unit vectors N, E, S, W. -/
def CanonicalOri (v : Vec) : Prop :=
  v = (0, 1) ∨ v = (1, 0) ∨ v = (0, -1) ∨ v = (-1, 0)

instance (v : Vec) : Decidable (CanonicalOri v) := by
  unfold CanonicalOri; infer_instance

/-! ### Helper lemmas -/

lemma plan_traj_fst_length (p o : Vec) (cmds : List String) :
    ((plan_traj p o cmds).1).length = cmds.length + 1 := by
  induction cmds generalizing p o with
  | nil => rfl
  | cons c cs ih =>
    simp only [plan_traj]
    split
    · simpa using ih ..
    · split
      · simpa using ih ..
      · simpa using ih ..

lemma plan_traj_snd_length (p o : Vec) (cmds : List String) :
    ((plan_traj p o cmds).2).length = cmds.length + 1 := by
  induction cmds generalizing p o with
  | nil => rfl
  | cons c cs ih =>
    simp only [plan_traj]
    split
    · simpa using ih ..
    · split
      · simpa using ih ..
      · simpa using ih ..

lemma plan_traj_fst_head (p o : Vec) (cmds : List String) :
    ((plan_traj p o cmds).1)[0]? = some p := by
  cases cmds with
  | nil => rfl
  | cons c cs =>
    simp only [plan_traj]
    split
    · simp
    · split <;> simp

lemma plan_traj_snd_head (p o : Vec) (cmds : List String) :
    ((plan_traj p o cmds).2)[0]? = some o := by
  cases cmds with
  | nil => rfl
  | cons c cs =>
    simp only [plan_traj]
    split
    · simp
    · split <;> simp

lemma plan_traj_cons_L (p o : Vec) (cs : List String) :
    plan_traj p o ("L" :: cs) =
      (p :: (plan_traj p (matVec rotMatCCW o) cs).1,
       o :: (plan_traj p (matVec rotMatCCW o) cs).2) := by
  simp [plan_traj]

lemma plan_traj_cons_R (p o : Vec) (cs : List String) :
    plan_traj p o ("R" :: cs) =
      (p :: (plan_traj p (matVec rotMatCW o) cs).1,
       o :: (plan_traj p (matVec rotMatCW o) cs).2) := by
  simp [plan_traj]

lemma plan_traj_cons_of_ne (p o : Vec) (c : String) (cs : List String)
    (hL : c ≠ "L") (hR : c ≠ "R") :
    plan_traj p o (c :: cs) =
      (p :: (plan_traj (vadd p o) o cs).1,
       o :: (plan_traj (vadd p o) o cs).2) := by
  simp only [plan_traj]
  rw [if_neg hL, if_neg hR]

lemma canonical_rot (o : Vec) (h : CanonicalOri o) :
    CanonicalOri (matVec rotMatCCW o) ∧ CanonicalOri (matVec rotMatCW o) := by
  rcases h with h | h | h | h <;> subst h <;> exact ⟨by decide, by decide⟩

lemma receive_cmd_ori (r : Robot) (c : String) (h : CanonicalOri r.ori) :
    CanonicalOri ((r.receive_cmd c).1).ori := by
  by_cases hLR : c = "L" ∨ c = "R"
  · by_cases hL : c = "L"
    · simp [Robot.receive_cmd, Robot.rotate, hLR, hL]
      exact (canonical_rot _ h).1
    · have hR : c = "R" := hLR.resolve_left hL
      simp [Robot.receive_cmd, Robot.rotate, hR]
      exact (canonical_rot _ h).2
  · simp [Robot.receive_cmd, Robot.move, hLR]
    exact h

lemma runCmds_ori (r : Robot) (cmds : List String) (h : CanonicalOri r.ori) :
    CanonicalOri (runCmds r cmds).ori := by
  induction cmds generalizing r with
  | nil => exact h
  | cons c cs ih => exact ih _ (receive_cmd_ori r c h)

lemma plan_traj_ori_canonical (p o : Vec) (cmds : List String)
    (h : CanonicalOri o) : ∀ v ∈ (plan_traj p o cmds).2, CanonicalOri v := by
  induction cmds generalizing p o with
  | nil =>
    intro v hv
    simp [plan_traj] at hv
    subst hv
    exact h
  | cons c cs ih =>
    by_cases hL : c = "L"
    · subst hL
      rw [plan_traj_cons_L]
      intro v hv
      rcases List.mem_cons.mp hv with hv | hv
      · subst hv; exact h
      · exact ih p _ (canonical_rot o h).1 v hv
    · by_cases hR : c = "R"
      · subst hR
        rw [plan_traj_cons_R]
        intro v hv
        rcases List.mem_cons.mp hv with hv | hv
        · subst hv; exact h
        · exact ih p _ (canonical_rot o h).2 v hv
      · rw [plan_traj_cons_of_ne p o c cs hL hR]
        intro v hv
        rcases List.mem_cons.mp hv with hv | hv
        · subst hv; exact h
        · exact ih (vadd p o) o h v hv

/-! ### Claim theorems -/

/-- C2: for every start pose and command sequence (the empty one included),
the trajectory returned by `plan_traj` — both the position array and the
orientation array — has length `len(commands) + 1`, and its element at
index 0 is the start pose. -/
theorem spec_c2_plan_traj_length_and_start (p o : Vec) (cmds : List String) :
    ((plan_traj p o cmds).1).length = cmds.length + 1 ∧
    ((plan_traj p o cmds).2).length = cmds.length + 1 ∧
    ((plan_traj p o cmds).1)[0]? = some p ∧
    ((plan_traj p o cmds).2)[0]? = some o :=
  ⟨plan_traj_fst_length p o cmds, plan_traj_snd_length p o cmds,
   plan_traj_fst_head p o cmds, plan_traj_snd_head p o cmds⟩

/-- C3: the claim says the collision check returns true iff no index `i`
below both lengths has equal positions, and in particular returns false on
two trajectories sharing a position at the same step.  The source
`is_no_collisions` is an unfinished stub returning `True` unconditionally,
so on the colliding pair `[(2,2)]`, `[(2,2)]` it returns true while the
check the claim (and the stub's own docstring) describe returns false. -/
theorem spec_c3_collision_check_stubbed :
    is_no_collisions [((2 : Int), (2 : Int))] [((2 : Int), (2 : Int))] = true ∧
    noCollisionSpec [((2 : Int), (2 : Int))] [((2 : Int), (2 : Int))] = false := by
  exact ⟨rfl, by decide⟩

/-- C4: `is_on_table` returns true iff `0 ≤ x ≤ width` and `0 ≤ y ≤ height`,
inclusive on both ends; in particular `(0, -1)` — which is exactly step 1 of
the trajectory of a robot at `(0,0)` facing S executing `"M"` — is reported
as off the table for bounds `(5, 5)`. -/
theorem spec_c4_is_on_table_iff :
    (∀ pos tableSize : Vec, is_on_table pos tableSize = true ↔
      (0 ≤ pos.1 ∧ pos.1 ≤ tableSize.1 ∧ 0 ≤ pos.2 ∧ pos.2 ≤ tableSize.2)) ∧
    is_on_table (0, -1) (5, 5) = false ∧
    ((plan_traj (0, 0) (0, -1) ["M"]).1)[1]? = some (0, -1) := by
  refine ⟨fun pos tableSize => ?_, by decide, by decide⟩
  simp only [is_on_table, Bool.and_eq_true, decide_eq_true_eq, ge_iff_le]
  tauto

/-- C6: in the reference scenario (table bounds `(5,5)`), a robot starting
at `(1,2)` facing N (`orichar2vec "N" = (0,1)`) and executing the command
sequence `LMLMLMLMM` ends at position `(1,3)` with orientation N. -/
theorem spec_c6_reference_scenario :
    ((plan_traj (1, 2) (0, 1)
        ["L", "M", "L", "M", "L", "M", "L", "M", "M"]).1).getLast? =
      some (1, 3) ∧
    ((plan_traj (1, 2) (0, 1)
        ["L", "M", "L", "M", "L", "M", "L", "M", "M"]).2).getLast? =
      some (0, 1) ∧
    orichar2vec "N" = some (0, 1) ∧
    orivec2char (0, 1) = some "N" := by
  refine ⟨by decide, by decide, by decide, by decide⟩

/-- C1: at every step of a `plan_traj` trajectory, command `"L"` keeps the
position and rotates the orientation by `rotMatCCW = [[0,-1],[1,0]]` (so
N maps to W, W to S, S to E, E to N), command `"R"` keeps the position and
rotates by `rotMatCW = [[0,1],[-1,0]]` (N to E, E to S, S to W, W to N),
and command `"M"` adds the orientation to the position and keeps the
orientation. -/
theorem spec_c1_transition_rules (p o : Vec) (cmds : List String) (i : Nat)
    (pv ov : Vec)
    (hp : ((plan_traj p o cmds).1)[i]? = some pv)
    (ho : ((plan_traj p o cmds).2)[i]? = some ov) :
    (cmds[i]? = some "L" →
      ((plan_traj p o cmds).1)[i + 1]? = some pv ∧
      ((plan_traj p o cmds).2)[i + 1]? = some (matVec rotMatCCW ov)) ∧
    (cmds[i]? = some "R" →
      ((plan_traj p o cmds).1)[i + 1]? = some pv ∧
      ((plan_traj p o cmds).2)[i + 1]? = some (matVec rotMatCW ov)) ∧
    (cmds[i]? = some "M" →
      ((plan_traj p o cmds).1)[i + 1]? = some (vadd pv ov) ∧
      ((plan_traj p o cmds).2)[i + 1]? = some ov) ∧
    (matVec rotMatCCW (0, 1) = (-1, 0) ∧ matVec rotMatCCW (-1, 0) = (0, -1) ∧
     matVec rotMatCCW (0, -1) = (1, 0) ∧ matVec rotMatCCW (1, 0) = (0, 1)) ∧
    (matVec rotMatCW (0, 1) = (1, 0) ∧ matVec rotMatCW (1, 0) = (0, -1) ∧
     matVec rotMatCW (0, -1) = (-1, 0) ∧ matVec rotMatCW (-1, 0) = (0, 1)) := by
  induction cmds generalizing p o i pv ov with
  | nil =>
    refine ⟨?_, ?_, ?_, by decide, by decide⟩ <;> intro h <;> simp at h
  | cons c cs ih =>
    cases i with
    | zero =>
      rw [plan_traj_fst_head] at hp
      rw [plan_traj_snd_head] at ho
      injection hp with hp
      injection ho with ho
      subst hp
      subst ho
      refine ⟨?_, ?_, ?_, by decide, by decide⟩ <;> intro h <;>
        simp only [List.getElem?_cons_zero, Option.some.injEq] at h <;> subst h
      · simp [plan_traj_cons_L, plan_traj_fst_head, plan_traj_snd_head]
      · simp [plan_traj_cons_R, plan_traj_fst_head, plan_traj_snd_head]
      · rw [plan_traj_cons_of_ne p o "M" cs (by decide) (by decide)]
        simp [plan_traj_fst_head, plan_traj_snd_head]
    | succ i =>
      by_cases hL : c = "L"
      · subst hL
        rw [plan_traj_cons_L] at hp ho ⊢
        simp only [List.getElem?_cons_succ] at hp ho ⊢
        exact ih _ _ _ _ _ hp ho
      · by_cases hR : c = "R"
        · subst hR
          rw [plan_traj_cons_R] at hp ho ⊢
          simp only [List.getElem?_cons_succ] at hp ho ⊢
          exact ih _ _ _ _ _ hp ho
        · rw [plan_traj_cons_of_ne p o c cs hL hR] at hp ho ⊢
          simp only [List.getElem?_cons_succ] at hp ho ⊢
          exact ih _ _ _ _ _ hp ho

/-- Witness for C1 at the start pose `((0,0), (0,1))` with the single
command `"L"`. -/
theorem spec_c1_transition_rules_witness :
    (((plan_traj ((0 : Int), (0 : Int)) ((0 : Int), (1 : Int)) ["L"]).1)[0]? =
        some ((0 : Int), (0 : Int))) ∧
    (((plan_traj ((0 : Int), (0 : Int)) ((0 : Int), (1 : Int)) ["L"]).2)[0]? =
        some ((0 : Int), (1 : Int))) ∧
    ((["L"][0]? = some "L") →
      ((plan_traj ((0 : Int), (0 : Int)) ((0 : Int), (1 : Int)) ["L"]).1)[0 + 1]? =
        some ((0 : Int), (0 : Int)) ∧
      ((plan_traj ((0 : Int), (0 : Int)) ((0 : Int), (1 : Int)) ["L"]).2)[0 + 1]? =
        some (matVec rotMatCCW ((0 : Int), (1 : Int)))) :=
  ⟨by decide, by decide,
   (spec_c1_transition_rules (0, 0) (0, 1) ["L"] 0 (0, 0) (0, 1)
      (by decide) (by decide)).1⟩

/-- C5 counterexample: the claim says `orichar2vec` fails with
`InvalidOrientationError` on any input outside the four letters, rather
than returning; but on `"X"` the source function returns normally (Python's
implicit `return None`), raising nothing. -/
theorem spec_c5_counterexample :
    orichar2vecE "X" = Except.ok none ∧
    ∀ e : String, orichar2vecE "X" ≠ Except.error e := by
  refine ⟨rfl, fun e he => ?_⟩
  have h0 : orichar2vecE "X" = Except.ok none := rfl
  rw [h0] at he
  exact Except.noConfusion he

/-- C5 amended: `orichar2vec` maps exactly the four characters N, E, S, W
to the four unit vectors, and for every other input it returns `None` (no
orientation vector), not an error. -/
theorem spec_c5_codec_amended (c : String) (h1 : c ≠ "N") (h2 : c ≠ "E")
    (h3 : c ≠ "S") (h4 : c ≠ "W") :
    orichar2vec "N" = some (0, 1) ∧ orichar2vec "E" = some (1, 0) ∧
    orichar2vec "S" = some (0, -1) ∧ orichar2vec "W" = some (-1, 0) ∧
    orichar2vec c = none ∧ orichar2vecE c = Except.ok none := by
  refine ⟨rfl, rfl, rfl, rfl, ?_, ?_⟩ <;>
    simp [orichar2vec, orichar2vecE, h1, h2, h3, h4]

/-- Witness for the amended C5 at the invalid orientation letter `"X"`. -/
theorem spec_c5_codec_amended_witness :
    ("X" : String) ≠ "N" ∧ ("X" : String) ≠ "E" ∧ ("X" : String) ≠ "S" ∧
    ("X" : String) ≠ "W" ∧
    (orichar2vec "N" = some (0, 1) ∧ orichar2vec "E" = some (1, 0) ∧
     orichar2vec "S" = some (0, -1) ∧ orichar2vec "W" = some (-1, 0) ∧
     orichar2vec "X" = none ∧ orichar2vecE "X" = Except.ok none) :=
  ⟨by decide, by decide, by decide, by decide,
   spec_c5_codec_amended "X" (by decide) (by decide) (by decide) (by decide)⟩

/-- C7: starting from any of the four canonical orientations, every
orientation along a `plan_traj` trajectory, and the orientation of a
`Robot` session driven by the same commands, is one of the four unit
vectors `(0,1)`, `(1,0)`, `(0,-1)`, `(-1,0)`. -/
theorem spec_c7_orientation_invariant (p o : Vec) (cmds : List String)
    (h : CanonicalOri o) :
    (∀ v ∈ (plan_traj p o cmds).2, CanonicalOri v) ∧
    CanonicalOri (runCmds ⟨p, o⟩ cmds).ori :=
  ⟨plan_traj_ori_canonical p o cmds h, runCmds_ori ⟨p, o⟩ cmds h⟩

/-- Witness for C7 with start orientation N and commands `["L", "M"]`. -/
theorem spec_c7_orientation_invariant_witness :
    CanonicalOri ((0 : Int), (1 : Int)) ∧
    ((∀ v ∈ (plan_traj ((0 : Int), (0 : Int)) ((0 : Int), (1 : Int))
        ["L", "M"]).2, CanonicalOri v) ∧
     CanonicalOri (runCmds ⟨((0 : Int), (0 : Int)), ((0 : Int), (1 : Int))⟩
        ["L", "M"]).ori) :=
  ⟨by decide,
   spec_c7_orientation_invariant (0, 0) (0, 1) ["L", "M"] (by decide)⟩

/-- C8: for each of the four canonical orientation vectors, converting to a
character with `orivec2char` and back with `orichar2vec` yields the same
vector. -/
theorem spec_c8_codec_roundtrip (v : Vec) (h : CanonicalOri v) :
    (orivec2char v).bind orichar2vec = some v := by
  rcases h with h | h | h | h <;> subst h <;> rfl

/-- Witness for C8 at the orientation N = `(0, 1)`. -/
theorem spec_c8_codec_roundtrip_witness :
    CanonicalOri ((0 : Int), (1 : Int)) ∧
    (orivec2char ((0 : Int), (1 : Int))).bind orichar2vec =
      some ((0 : Int), (1 : Int)) :=
  ⟨by decide, spec_c8_codec_roundtrip (0, 1) (by decide)⟩

/-- C9: the two rotations are mutually inverse — rotating left after
rotating right (or right after left) restores any orientation vector, both
through the rotation matrices and through `Robot.rotate`. -/
theorem spec_c9_rotations_inverse (v : Vec) (r : Robot) :
    matVec rotMatCCW (matVec rotMatCW v) = v ∧
    matVec rotMatCW (matVec rotMatCCW v) = v ∧
    ((r.rotate "R").1.rotate "L").1 = r ∧
    ((r.rotate "L").1.rotate "R").1 = r := by
  obtain ⟨x, y⟩ := v
  obtain ⟨rp, ⟨ox, oy⟩⟩ := r
  refine ⟨?_, ?_, ?_, ?_⟩ <;>
    simp [Robot.rotate, matVec, rotMatCCW, rotMatCW]

/-- C10: every command other than `"L"` and `"R"` — the letter `"X"`
included — is executed as a move, both by `plan_traj` and by
`Robot.receive_cmd`, and `receive_cmd` reports success (`True`) on every
input string. -/
theorem spec_c10_default_command_is_move (p o : Vec) (c : String)
    (cs : List String) (r : Robot) (hL : c ≠ "L") (hR : c ≠ "R") :
    plan_traj p o (c :: cs) =
      (p :: (plan_traj (vadd p o) o cs).1,
       o :: (plan_traj (vadd p o) o cs).2) ∧
    r.receive_cmd c = (r.move.1, true) ∧
    ∀ s : String, (r.receive_cmd s).2 = true := by
  refine ⟨plan_traj_cons_of_ne p o c cs hL hR, ?_, ?_⟩
  · simp [Robot.receive_cmd, hL, hR]
  · intro s
    unfold Robot.receive_cmd
    split <;> rfl

/-- Witness for C10 at the non-alphabet command `"X"`. -/
theorem spec_c10_default_command_is_move_witness :
    ("X" : String) ≠ "L" ∧ ("X" : String) ≠ "R" ∧
    (plan_traj ((0 : Int), (0 : Int)) ((0 : Int), (1 : Int)) ["X"] =
       (((0 : Int), (0 : Int)) ::
          (plan_traj (vadd ((0 : Int), (0 : Int)) ((0 : Int), (1 : Int)))
            ((0 : Int), (1 : Int)) []).1,
        ((0 : Int), (1 : Int)) ::
          (plan_traj (vadd ((0 : Int), (0 : Int)) ((0 : Int), (1 : Int)))
            ((0 : Int), (1 : Int)) []).2) ∧
     (Robot.mk ((0 : Int), (0 : Int)) ((0 : Int), (1 : Int))).receive_cmd "X" =
       ((Robot.mk ((0 : Int), (0 : Int)) ((0 : Int), (1 : Int))).move.1, true) ∧
     ∀ s : String,
       ((Robot.mk ((0 : Int), (0 : Int)) ((0 : Int), (1 : Int))).receive_cmd
          s).2 = true) :=
  ⟨by decide, by decide,
   spec_c10_default_command_is_move (0, 0) (0, 1) "X" []
     ⟨(0, 0), (0, 1)⟩ (by decide) (by decide)⟩

end RobotControl
